import Mathlib

/-!
Verification of the electronic-stamp PDF pipeline (`src/utils/pdf.ts`,
`src/components/PDFCanvas` stamp uploader and `useStampAdder` hook).

The TypeScript source is shallowly embedded: a PDF document is modelled as its
list of page geometries together with the list of stamp draw operations burned
into it; JavaScript numbers are modelled as rationals; fallible functions
return `Except`.  The order of the side-effecting steps inside
`addStampToPDF` is captured by an explicit step trace.
-/

namespace ElectronicStamp

/-- A rectangle with position and size, as used both for editing-surface
placements and for page-space draw rectangles. -/
structure Rect where
  x : ℚ
  y : ℚ
  width : ℚ
  height : ℚ
deriving Repr, DecidableEq

/-- Intrinsic page width/height in PDF points, as returned by
`page.getSize()`. -/
structure PageGeometry where
  width : ℚ
  height : ℚ
deriving Repr, DecidableEq, Inhabited

/-- `FABRIC_CANVAS_WIDTH = 500` from the bottom of `pdf.ts`. -/
def FABRIC_CANVAS_WIDTH : ℚ := 500

/-- `FABRIC_CANVAS_HEIGHT = parseFloat((500 * Math.sqrt(2)).toFixed(2))`:
the JavaScript expression evaluates to the literal 707.11. -/
def FABRIC_CANVAS_HEIGHT : ℚ := 70711 / 100

/-- A stamp asset from the store: `{ id, src, name }` (`src` is a data URL
produced by `FileReader.readAsDataURL`). -/
structure Stamp where
  id : String
  src : String
  name : String
deriving Repr, DecidableEq

/-- A recorded per-page placement from the store:
`{ pageNumber, stampId, position }` where `position` carries x/y and
width/height in editing-surface units. -/
structure PageStamp where
  pageNumber : Int
  stampId : String
  position : Rect
deriving Repr, DecidableEq

/-- A PDF file: its name, its pages' intrinsic geometries, and the stamp
draw operations its content carries (0-based page index paired with the
page-space draw rectangle).  A freshly uploaded file has no draws. -/
structure PdfFile where
  name : String
  pages : List PageGeometry
  draws : List (Nat × Rect)
deriving Repr, DecidableEq

/-- The error conditions raised inside `pdf.ts`. -/
inductive PdfError where
  /-- the thrown message carries the valid range 1..pageCount -/
  | invalidPageNumber (lo hi : Int)
  /-- stamp image is not a data URL (`startsWith('data:')` fails) -/
  | invalidDataUrl
  /-- stamp image does not contain the substring `image/png` -/
  | notPng
  /-- the coarse re-thrown error of the compositor catch blocks -/
  | stampApplyFailed
deriving Repr, DecidableEq

/-- Decides whether `pat` is a prefix of `hay` (character-wise). -/
def matchesAt : List Char → List Char → Bool
  | [], _ => true
  | _ :: _, [] => false
  | p :: ps, h :: hs => p == h && matchesAt ps hs

/-- Decides whether `pat` occurs as a contiguous substring of `hay`. -/
def hasSub (pat : List Char) : List Char → Bool
  | [] => matchesAt pat []
  | h :: hs => matchesAt pat (h :: hs) || hasSub pat hs

/-- JavaScript `s.includes(pat)`: substring containment anywhere in `s`. -/
def strIncludes (s pat : String) : Bool :=
  hasSub pat.toList s.toList

/-- JavaScript `s.startsWith(pat)`: `pat` is a prefix of `s`. -/
def strStarts (s pat : String) : Bool :=
  matchesAt pat.toList s.toList

/-- The draw rectangle computed by `addStampToPDF` / `addStampToAllPDFPages`
for one page.  With a supplied `position` the editing-surface rectangle is
scaled by `scaleX = width / FABRIC_CANVAS_WIDTH`,
`scaleY = height / FABRIC_CANVAS_HEIGHT` and the vertical axis is flipped
(`stampY = height - position.y * scaleY - stampHeight`); without one, a
100×100 square centered on the page is used. -/
def stampPlacementRect (position : Option Rect) (geom : PageGeometry) : Rect :=
  match position with
  | some p =>
      let scaleX := geom.width / FABRIC_CANVAS_WIDTH
      let scaleY := geom.height / FABRIC_CANVAS_HEIGHT
      let stampWidth := p.width * scaleX
      let stampHeight := p.height * scaleY
      let stampX := p.x * scaleX
      let stampY := geom.height - p.y * scaleY - stampHeight
      { x := stampX, y := stampY, width := stampWidth, height := stampHeight }
  | none =>
      let stampWidth : ℚ := 100
      let stampHeight : ℚ := 100
      let stampX := geom.width / 2 - stampWidth / 2
      let stampY := geom.height / 2 - stampHeight / 2
      { x := stampX, y := stampY, width := stampWidth, height := stampHeight }

/-- The rasterization of one page (`renderPageToImage` inside
`pdfPageToImage`): `canvas.toDataURL('image/png')` after rendering the page.
Modelled as a data-URL string determined by the rendered file's name, the
requested page, and the document content (pages and burned-in draws). -/
def renderPageToImage (file : PdfFile) (pageNum : Int) : String :=
  "data:image/png;base64," ++ file.name ++ "#" ++ toString pageNum ++ "#"
    ++ toString (repr file.pages) ++ "#" ++ toString (repr file.draws)

/-- The body of the `try` block of `pdfPageToImage`: validate
`1 ≤ pageNumber ≤ pdf.numPages` (throwing the invalid-page error carrying the
valid range) and render the page. -/
def pdfPageToImageCore (file : PdfFile) (pageNumber : Int) :
    Except PdfError String :=
  if pageNumber < 1 ∨ pageNumber > (file.pages.length : Int) then
    .error (.invalidPageNumber 1 file.pages.length)
  else
    .ok (renderPageToImage file pageNumber)

/-- The result record of `pdfPageToImage`. -/
structure PageImageResult where
  image : String
  error : Option String
  fileName : String
  pageNumber : Int
deriving Repr, DecidableEq

/-- The generic per-page message produced by the catch block of
`pdfPageToImage`. -/
def pageProcessingErrorMessage (pageNumber : Int) : String :=
  "error processing page " ++ toString pageNumber

/-- `pdfPageToImage`: runs the core pipeline; any error is caught and turned
into a result record with an empty image and a generic per-page message. -/
def pdfPageToImage (file : PdfFile) (pageNumber : Int) : PageImageResult :=
  match pdfPageToImageCore file pageNumber with
  | .ok img =>
      { image := img, error := none, fileName := file.name, pageNumber := pageNumber }
  | .error _ =>
      { image := "", error := some (pageProcessingErrorMessage pageNumber),
        fileName := file.name, pageNumber := pageNumber }

/-- The side-effecting steps of `addStampToPDF`, in source order: load the
document (`PDFDocument.load`), extract bytes from the data URL
(`dataURLToBytes`), embed the PNG (`pdfDoc.embedPng`), validate the page
number, draw the image, save the document. -/
inductive Step where
  | loadDocument
  | extractDataUrl
  | embedPng
  | validatePage
  | drawImage
  | saveDocument
deriving Repr, DecidableEq

/-- The body of the `try` block of `addStampToPDF`, paired with the trace of
steps it performed before returning.  Source order: load the document, check
`stampImage.startsWith('data:')` and extract bytes, check
`stampImage.includes('image/png')` and embed, validate
`1 ≤ pageNumber ≤ pages.length`, compute the draw rectangle, draw, save. -/
def addStampToPDFCore (file : PdfFile) (stampImage : String)
    (position : Option Rect) (pageNumber : Int) :
    List Step × Except PdfError PdfFile :=
  if strStarts stampImage "data:" then
    if strIncludes stampImage "image/png" then
      if pageNumber < 1 ∨ pageNumber > (file.pages.length : Int) then
        ([.loadDocument, .extractDataUrl, .embedPng, .validatePage],
          .error (.invalidPageNumber 1 file.pages.length))
      else
        let geom := file.pages.getD (pageNumber - 1).toNat default
        ([.loadDocument, .extractDataUrl, .embedPng, .validatePage, .drawImage,
            .saveDocument],
          .ok { file with
                draws := file.draws
                  ++ [((pageNumber - 1).toNat, stampPlacementRect position geom)] })
    else
      ([.loadDocument, .extractDataUrl], .error .notPng)
  else
    ([.loadDocument], .error .invalidDataUrl)

/-- `addStampToPDF`: the core pipeline, with the catch block re-throwing any
failure as the single coarse error. -/
def addStampToPDF (file : PdfFile) (stampImage : String)
    (position : Option Rect) (pageNumber : Int) : Except PdfError PdfFile :=
  match (addStampToPDFCore file stampImage position pageNumber).2 with
  | .ok f => .ok f
  | .error _ => .error .stampApplyFailed

/-- The body of the `try` block of `addStampToAllPDFPages`: load the
document, check the data-URL and PNG format of the stamp, then draw the
stamp on every page at the rectangle computed from that page's own
geometry, and save. -/
def addStampToAllPDFPagesCore (file : PdfFile) (stampImage : String)
    (position : Option Rect) : Except PdfError PdfFile :=
  if strStarts stampImage "data:" then
    if strIncludes stampImage "image/png" then
      .ok { file with
            draws := file.draws
              ++ file.pages.enum.map (fun q => (q.1, stampPlacementRect position q.2)) }
    else .error .notPng
  else .error .invalidDataUrl

/-- `addStampToAllPDFPages`: the core pipeline with the coarse catch. -/
def addStampToAllPDFPages (file : PdfFile) (stampImage : String)
    (position : Option Rect) : Except PdfError PdfFile :=
  match addStampToAllPDFPagesCore file stampImage position with
  | .ok f => .ok f
  | .error _ => .error .stampApplyFailed

/-- The position adjustment performed inside `getPageImageByFile` before
calling the compositor: both coordinates are clamped to be non-negative
(`x: Math.max(0, position.x)`, `y: Math.max(0, position.y)`); width and
height are passed through unchanged. -/
def adjustedPosition (r : Rect) : Rect :=
  { r with x := max 0 r.x, y := max 0 r.y }

/-- `getPageImageByFile`: look up a recorded placement for the page; without
one, return the plain page render.  With one, look up the referenced stamp,
clamp the recorded position, composite the stamp into a temporary PDF and
render that page of it; any failure in this block is caught and the plain
(unstamped) page render is returned instead. -/
def getPageImageByFile (pageStamps : List PageStamp) (stamps : List Stamp)
    (file : PdfFile) (pageNumber : Int) : String :=
  match pageStamps.find? (fun ps => ps.pageNumber == pageNumber) with
  | none => (pdfPageToImage file pageNumber).image
  | some pageStamp =>
      match stamps.find? (fun s => s.id == pageStamp.stampId) with
      | none =>
          -- `throw` on a missing stamp, caught by the surrounding catch
          (pdfPageToImage file pageNumber).image
      | some stamp =>
          let position := adjustedPosition pageStamp.position
          match addStampToPDF file stamp.src (some position) pageNumber with
          | .error _ =>
              -- compositor failure, caught by the surrounding catch
              (pdfPageToImage file pageNumber).image
          | .ok modifiedFile =>
              (pdfPageToImage { modifiedFile with name := file.name } pageNumber).image

/-- The canvas operations performed by `addStampToCanvas` on the fabric
canvas and on the store's placed-object reference, in order. -/
inductive CanvasOp where
  /-- `targetCanvas.remove(stampObject)` -/
  | removeObject (id : Nat)
  /-- `setStampObject(null)` -/
  | clearStampRef
  /-- `targetCanvas.add(fabricImg)` -/
  | addObject (id : Nat)
  /-- `targetCanvas.setActiveObject(fabricImg)` -/
  | setActiveObject (id : Nat)
  /-- `setStampObject(fabricImg)` -/
  | setStampRef (id : Nat)
deriving Repr, DecidableEq

/-- The state visible to `useStampAdder`: the stamp objects currently on the
fabric canvas (by identity), the store's `stampObject` reference, the store's
`selectedStamp`, and a counter supplying fresh object identities. -/
structure CanvasState where
  objects : List Nat
  stampObject : Option Nat
  selectedStamp : Option Stamp
  nextId : Nat
deriving Repr, DecidableEq

/-- `addStampToCanvas`: resolves `false` at once when no stamp is selected.
Otherwise the existing placed object, if any, is removed from the canvas and
its store reference cleared; then the stamp image is loaded (`loadOk` models
whether `img.onload` fires successfully) and, on success, a fresh fabric
image is added to the canvas, made active, and recorded as the placed
object.  Returns the new state, the resolved boolean, and the trace of
canvas/store operations. -/
def addStampToCanvas (s : CanvasState) (loadOk : Bool) :
    CanvasState × Bool × List CanvasOp :=
  match s.selectedStamp with
  | none => (s, false, [])
  | some _ =>
      let removal :=
        match s.stampObject with
        | some objId =>
            ({ s with objects := s.objects.erase objId, stampObject := none },
              [CanvasOp.removeObject objId, CanvasOp.clearStampRef])
        | none => (s, ([] : List CanvasOp))
      let s1 := removal.1
      if loadOk then
        let newId := s1.nextId
        ({ s1 with
            objects := s1.objects ++ [newId],
            stampObject := some newId,
            nextId := newId + 1 },
          true,
          removal.2 ++ [CanvasOp.addObject newId, CanvasOp.setActiveObject newId,
            CanvasOp.setStampRef newId])
      else (s1, false, removal.2)

/-- The placed-object invariant of the editing surface: the stamp objects on
the canvas are exactly those held by the store's `stampObject` reference
(so there is at most one, and it is never orphaned). -/
def PlacedInv (s : CanvasState) : Prop :=
  s.objects = s.stampObject.toList

instance (s : CanvasState) : Decidable (PlacedInv s) := by
  unfold PlacedInv; infer_instance

/-- `handleStampChange` of `StampUploader` for a chosen file: uploads over
the 5-asset cap are rejected with the library unchanged; otherwise the file
is validated (`isValid` models `validateStampFile`) and, when valid, read as
a data URL and appended to the library as a fresh stamp. -/
def handleStampChange (stamps : List Stamp) (isValid : Bool)
    (newStamp : Stamp) : List Stamp :=
  if stamps.length ≥ 5 then stamps
  else if isValid then stamps ++ [newStamp]
  else stamps

/-- Modelled from the spec: the store's `removeStamp` action (the store
module itself is not part of the provided sources) — `Stamp Asset ...
destroyed on explicit removal`, so removal deletes the assets with the
given id from the collection. -/
def removeStamp (stamps : List Stamp) (stampId : String) : List Stamp :=
  stamps.filter (fun s => !(s.id == stampId))

/-- An operation on the stamp library: an upload attempt through
`handleStampChange`, or a removal through `handleStampRemove`. -/
inductive LibOp where
  | upload (isValid : Bool) (newStamp : Stamp)
  | remove (stampId : String)
deriving Repr, DecidableEq

/-- Applies one library operation to the current stamp list. -/
def applyLibOp (stamps : List Stamp) : LibOp → List Stamp
  | .upload isValid newStamp => handleStampChange stamps isValid newStamp
  | .remove stampId => removeStamp stamps stampId

/-- The stamp library reached from the empty library by a sequence of
upload/remove operations. -/
def runLibOps (ops : List LibOp) : List Stamp :=
  ops.foldl applyLibOp []

/-- A recorded placement with its position clamped exactly as
`getPageImageByFile` clamps it before compositing. -/
def clampPageStamp (ps : PageStamp) : PageStamp :=
  { ps with position := adjustedPosition ps.position }

/-! ## Helper lemmas -/

/-- The supplied-position branch of the draw-rectangle computation, with the
editing-surface constants unfolded to their literal values. -/
theorem stampPlacementRect_some_eq (p : Rect) (g : PageGeometry) :
    stampPlacementRect (some p) g =
      { x := p.x * (g.width / 500),
        y := g.height - p.y * (g.height / (70711 / 100))
          - p.height * (g.height / (70711 / 100)),
        width := p.width * (g.width / 500),
        height := p.height * (g.height / (70711 / 100)) } := rfl

/-! ## Claims -/

/-- C1, counterexample: at the placement rectangle `{-100, 0, 50, 50}` on a
`500 × 707.11` page (where both scales are 1), the compositor's x-coordinate
is `-100`, not the claimed `max(0, x * scaleX) = 0`: neither compositing
entry point clamps the transformed x-coordinate. -/
theorem c1_x_clamp_counterexample :
    (stampPlacementRect (some { x := -100, y := 0, width := 50, height := 50 })
        { width := 500, height := 70711 / 100 }).x ≠
      max 0 ((-100 : ℚ) * (500 / 500)) := by
  norm_num [stampPlacementRect, FABRIC_CANVAS_WIDTH]

/-- C1, amended: for every placement rectangle and page geometry the
compositing transform produces `width = w * (pageWidth / 500)`,
`height = h * (pageHeight / 707.11)`, `x = x * (pageWidth / 500)` (with no
`max(0, ·)` clamp), and `y = pageHeight - y * scaleY - height` (vertical
axis flipped to the bottom-left origin). -/
theorem c1_transform_formulas (p : Rect) (g : PageGeometry) :
    stampPlacementRect (some p) g =
      { x := p.x * (g.width / 500),
        y := g.height - p.y * (g.height / (70711 / 100))
          - p.height * (g.height / (70711 / 100)),
        width := p.width * (g.width / 500),
        height := p.height * (g.height / (70711 / 100)) } :=
  stampPlacementRect_some_eq p g

/-- C6: when no placement rectangle is supplied, the compositors draw a
100×100 square centered on the page — `{W/2 - 50, H/2 - 50, 100, 100}` in
page units for every page geometry `{W, H}`, with no reference to the
editing-surface scale factors. -/
theorem c6_default_placement (g : PageGeometry) :
    stampPlacementRect none g =
      { x := g.width / 2 - 50, y := g.height / 2 - 50,
        width := 100, height := 100 } := by
  simp only [stampPlacementRect, Rect.mk.injEq]
  norm_num

/-- C4: on any document and fixed placement rectangle with a well-formed PNG
data-URL stamp, `addStampToAllPDFPages` appends, for every page in order, a
draw of the stamp at the rectangle obtained by applying the §4.1 transform
to that page's own intrinsic geometry — pages of differing sizes each get
their own per-page transform output. -/
theorem c4_all_pages_consistency (f : PdfFile) (s : String) (p : Rect)
    (h1 : strStarts s "data:" = true) (h2 : strIncludes s "image/png" = true) :
    addStampToAllPDFPages f s (some p) =
      .ok { f with draws := f.draws ++ f.pages.enum.map (fun q =>
        (q.1, { x := p.x * (q.2.width / 500),
                y := q.2.height - p.y * (q.2.height / (70711 / 100))
                  - p.height * (q.2.height / (70711 / 100)),
                width := p.width * (q.2.width / 500),
                height := p.height * (q.2.height / (70711 / 100)) })) } := by
  unfold addStampToAllPDFPages addStampToAllPDFPagesCore
  rw [if_pos h1, if_pos h2]
  rfl

/-- C4 witness: a 3-page document whose pages have three different intrinsic
sizes, stamped on all pages at a fixed placement rectangle. -/
theorem c4_witness :
    addStampToAllPDFPages
        { name := "doc",
          pages := [{ width := 500, height := 70711 / 100 },
            { width := 612, height := 792 }, { width := 300, height := 300 }],
          draws := [] }
        "data:image/png;base64,AAAA"
        (some { x := 40, y := 60, width := 80, height := 90 }) =
      .ok { name := "doc",
            pages := [{ width := 500, height := 70711 / 100 },
              { width := 612, height := 792 }, { width := 300, height := 300 }],
            draws := ([] : List (Nat × Rect)) ++
              ([{ width := (500 : ℚ), height := 70711 / 100 },
                { width := 612, height := 792 },
                { width := 300, height := 300 }] : List PageGeometry).enum.map
                (fun q =>
                  (q.1, { x := 40 * (q.2.width / 500),
                          y := q.2.height - 60 * (q.2.height / (70711 / 100))
                            - 90 * (q.2.height / (70711 / 100)),
                          width := 80 * (q.2.width / 500),
                          height := 90 * (q.2.height / (70711 / 100)) })) } :=
  c4_all_pages_consistency _ _ _ (by decide) (by decide)

/-- C2, counterexample: on a 1-page document, a well-formed PNG data-URL
stamp and the out-of-range page number 5, the trace of `addStampToPDF` shows
the document load, the data-URL byte extraction and the PNG embedding all
happening *before* the page-number validation rejects the request — the
page number is not rejected before doing any other work. -/
theorem c2_validate_not_first_counterexample :
    (addStampToPDFCore
        { name := "doc", pages := [{ width := 500, height := 70711 / 100 }],
          draws := [] }
        "data:image/png;base64,AAAA" none 5) =
      ([Step.loadDocument, Step.extractDataUrl, Step.embedPng, Step.validatePage],
        .error (.invalidPageNumber 1 1)) := by
  constructor

/-- C2, amended: `addStampToPDF` rejects an out-of-range page number before
drawing or saving, but only after loading/parsing the document, extracting
the stamp bytes and embedding the stamp image. -/
theorem c2_validates_after_parse_and_embed (f : PdfFile) (s : String)
    (pos : Option Rect) (n : Int)
    (h1 : strStarts s "data:" = true) (h2 : strIncludes s "image/png" = true)
    (h3 : n < 1 ∨ n > (f.pages.length : Int)) :
    addStampToPDFCore f s pos n =
      ([Step.loadDocument, Step.extractDataUrl, Step.embedPng, Step.validatePage],
        .error (.invalidPageNumber 1 f.pages.length)) := by
  unfold addStampToPDFCore
  rw [if_pos h1, if_pos h2, if_pos h3]

/-- C2 witness: the amended ordering at a concrete 2-page document and page
number 0. -/
theorem c2_witness :
    addStampToPDFCore
        { name := "two", pages := [{ width := 612, height := 792 },
          { width := 612, height := 792 }], draws := [] }
        "data:image/png;base64,BBBB" none 0 =
      ([Step.loadDocument, Step.extractDataUrl, Step.embedPng, Step.validatePage],
        .error (.invalidPageNumber 1 2)) :=
  c2_validates_after_parse_and_embed _ _ none 0 (by decide) (by decide)
    (by decide)

/-- C3: for a document with `P` pages and a well-formed PNG data-URL stamp,
any page number outside `1..P` makes the rasterizer pipeline and the
compositor both raise the invalid-page error carrying the valid range
`1..P` (surfaced by `pdfPageToImage` as an error result and by
`addStampToPDF` as the coarse re-thrown failure), while every page number
in `1..P` succeeds in both. -/
theorem c3_page_bounds (f : PdfFile) (s : String) (pos : Option Rect)
    (n : Int)
    (h1 : strStarts s "data:" = true) (h2 : strIncludes s "image/png" = true) :
    ((n < 1 ∨ n > (f.pages.length : Int)) →
      pdfPageToImageCore f n = .error (.invalidPageNumber 1 f.pages.length) ∧
      (pdfPageToImage f n).error = some (pageProcessingErrorMessage n) ∧
      (addStampToPDFCore f s pos n).2
        = .error (.invalidPageNumber 1 f.pages.length) ∧
      addStampToPDF f s pos n = .error .stampApplyFailed) ∧
    (1 ≤ n → n ≤ (f.pages.length : Int) →
      (pdfPageToImage f n).error = none ∧
      (pdfPageToImage f n).image = renderPageToImage f n ∧
      ∃ f', addStampToPDF f s pos n = .ok f') := by
  constructor
  · intro h3
    have hc : pdfPageToImageCore f n
        = .error (.invalidPageNumber 1 f.pages.length) := by
      unfold pdfPageToImageCore
      rw [if_pos h3]
    have ha : addStampToPDFCore f s pos n =
        ([Step.loadDocument, Step.extractDataUrl, Step.embedPng,
          Step.validatePage],
          .error (.invalidPageNumber 1 f.pages.length)) := by
      unfold addStampToPDFCore
      rw [if_pos h1, if_pos h2, if_pos h3]
    refine ⟨hc, ?_, ?_, ?_⟩
    · unfold pdfPageToImage
      rw [hc]
    · rw [ha]
    · unfold addStampToPDF
      rw [ha]
  · intro h4 h5
    have hcond : ¬(n < 1 ∨ n > (f.pages.length : Int)) := by omega
    have hc : pdfPageToImageCore f n = .ok (renderPageToImage f n) := by
      unfold pdfPageToImageCore
      rw [if_neg hcond]
    refine ⟨?_, ?_, ?_⟩
    · unfold pdfPageToImage
      rw [hc]
    · unfold pdfPageToImage
      rw [hc]
    · unfold addStampToPDF addStampToPDFCore
      rw [if_pos h1, if_pos h2, if_neg hcond]
      exact ⟨_, rfl⟩

/-- C3 witness: on a concrete 1-page document, page number 0 fails with the
invalid-page error carrying the range `1..1` and page number 1 succeeds,
for both the rasterizer and the compositor. -/
theorem c3_witness :
    (pdfPageToImageCore
        { name := "one", pages := [{ width := 612, height := 792 }],
          draws := [] } 0 = .error (.invalidPageNumber 1 1) ∧
      (pdfPageToImage
        { name := "one", pages := [{ width := 612, height := 792 }],
          draws := [] } 0).error = some (pageProcessingErrorMessage 0) ∧
      (addStampToPDFCore
        { name := "one", pages := [{ width := 612, height := 792 }],
          draws := [] } "data:image/png;base64,CCCC" none 0).2
        = .error (.invalidPageNumber 1 1) ∧
      addStampToPDF
        { name := "one", pages := [{ width := 612, height := 792 }],
          draws := [] } "data:image/png;base64,CCCC" none 0
        = .error .stampApplyFailed) ∧
    ((pdfPageToImage
        { name := "one", pages := [{ width := 612, height := 792 }],
          draws := [] } 1).error = none ∧
      (pdfPageToImage
        { name := "one", pages := [{ width := 612, height := 792 }],
          draws := [] } 1).image = renderPageToImage
        { name := "one", pages := [{ width := 612, height := 792 }],
          draws := [] } 1 ∧
      ∃ f', addStampToPDF
        { name := "one", pages := [{ width := 612, height := 792 }],
          draws := [] } "data:image/png;base64,CCCC" none 1 = .ok f') :=
  ⟨(c3_page_bounds _ _ none 0 (by decide) (by decide)).1 (by decide),
    (c3_page_bounds _ _ none 1 (by decide) (by decide)).2 (by decide)
      (by decide)⟩

/-- C9: both compositors proceed to PNG embedding exactly when the stamp
string starts with `data:` and contains the substring `image/png` anywhere
(so a `data:` URL with a non-PNG declared MIME type whose remainder happens
to contain `image/png` passes), and a data URL lacking the substring is
rejected with the PNG-format error. -/
theorem c9_png_format_check (f : PdfFile) (s : String) (pos : Option Rect)
    (n : Int) :
    (Step.embedPng ∈ (addStampToPDFCore f s pos n).1 ↔
      (strStarts s "data:" = true ∧ strIncludes s "image/png" = true)) ∧
    ((∃ f', addStampToAllPDFPages f s pos = .ok f') ↔
      (strStarts s "data:" = true ∧ strIncludes s "image/png" = true)) ∧
    (strStarts s "data:" = true → strIncludes s "image/png" = false →
      (addStampToPDFCore f s pos n).2 = .error .notPng ∧
      addStampToAllPDFPages f s pos = .error .stampApplyFailed) := by
  cases hb1 : strStarts s "data:" <;> cases hb2 : strIncludes s "image/png"
  · simp [addStampToPDFCore, addStampToAllPDFPages, addStampToAllPDFPagesCore,
      hb1, hb2]
  · simp [addStampToPDFCore, addStampToAllPDFPages, addStampToAllPDFPagesCore,
      hb1, hb2]
  · simp [addStampToPDFCore, addStampToAllPDFPages, addStampToAllPDFPagesCore,
      hb1, hb2]
  · by_cases hn : n < 1 ∨ n > (f.pages.length : Int) <;>
      simp [addStampToPDFCore, addStampToAllPDFPages,
        addStampToAllPDFPagesCore, hb1, hb2, hn]

/-- C9 witness: the stamp string `data:image/jpeg;base64,image/png` (a
non-PNG declared MIME type with the magic substring in its payload) reaches
PNG embedding, while `data:image/jpeg;base64,AAA` is rejected with the
PNG-format error. -/
theorem c9_witness :
    Step.embedPng ∈ (addStampToPDFCore
      { name := "w", pages := [{ width := 612, height := 792 }], draws := [] }
      "data:image/jpeg;base64,image/png" none 1).1 ∧
    (addStampToPDFCore
      { name := "w", pages := [{ width := 612, height := 792 }], draws := [] }
      "data:image/jpeg;base64,AAA" none 1).2 = .error .notPng :=
  ⟨(c9_png_format_check _ "data:image/jpeg;base64,image/png" none 1).1.mpr
      ⟨by decide, by decide⟩,
    ((c9_png_format_check _ "data:image/jpeg;base64,AAA" none 1).2.2
      (by decide) (by decide)).1⟩

/-- C5: whenever a page has a recorded placement and producing the stamped
image fails — the referenced stamp id is absent from the library, or the
compositor raises any error — `getPageImageByFile` returns the plain
unstamped rasterization of the page instead of raising. -/
theorem c5_fallback_to_unstamped (pageStamps : List PageStamp)
    (stamps : List Stamp) (f : PdfFile) (n : Int) (ps : PageStamp)
    (hfind : pageStamps.find? (fun q => q.pageNumber == n) = some ps)
    (hfail : stamps.find? (fun st => st.id == ps.stampId) = none ∨
      ∃ st, stamps.find? (fun st => st.id == ps.stampId) = some st ∧
        ∃ e, addStampToPDF f st.src (some (adjustedPosition ps.position)) n
          = .error e) :
    getPageImageByFile pageStamps stamps f n = (pdfPageToImage f n).image := by
  unfold getPageImageByFile
  rw [hfind]
  dsimp only
  rcases hfail with hmiss | ⟨st, hst, e, herr⟩
  · rw [hmiss]
  · rw [hst]
    dsimp only
    rw [herr]

/-- C5 witness: a recorded placement on page 1 references stamp id `ghost`,
which is absent from the (empty) stamp library; the page-image request
returns the plain unstamped render of page 1. -/
theorem c5_witness :
    getPageImageByFile
        [{ pageNumber := 1, stampId := "ghost",
           position := { x := 10, y := 20, width := 30, height := 40 } }]
        [] { name := "one", pages := [{ width := 612, height := 792 }],
             draws := [] } 1 =
      (pdfPageToImage
        { name := "one", pages := [{ width := 612, height := 792 }],
          draws := [] } 1).image :=
  c5_fallback_to_unstamped _ _ _ _ _ rfl (Or.inl rfl)

/-- A successful `addStampToCanvas` run on a state with a selected stamp and
a canvas satisfying the placed-object invariant: the previously placed
object (if any) is removed and its reference cleared, then a fresh object is
added, activated and referenced. -/
theorem addStampToCanvas_success (t : CanvasState) (st : Stamp)
    (hsel : t.selectedStamp = some st) (hI : PlacedInv t) :
    addStampToCanvas t true =
      ({ objects := [t.nextId], stampObject := some t.nextId,
          selectedStamp := t.selectedStamp, nextId := t.nextId + 1 }, true,
        (match t.stampObject with
          | some o => [CanvasOp.removeObject o, CanvasOp.clearStampRef]
          | none => []) ++
        [CanvasOp.addObject t.nextId, CanvasOp.setActiveObject t.nextId,
          CanvasOp.setStampRef t.nextId]) := by
  unfold addStampToCanvas
  rw [hsel]
  cases hso : t.stampObject with
  | none =>
      have h0 : t.objects = [] := by simpa [PlacedInv, hso] using hI
      simp [h0, hsel]
  | some o =>
      have h1 : t.objects = [o] := by simpa [PlacedInv, hso] using hI
      simp [h1, hsel]

/-- `addStampToCanvas` preserves the placed-object invariant, whether or not
the image load succeeds. -/
theorem placedInv_addStampToCanvas (t : CanvasState) (b : Bool)
    (hI : PlacedInv t) : PlacedInv (addStampToCanvas t b).1 := by
  unfold addStampToCanvas
  cases hsel : t.selectedStamp with
  | none => simpa using hI
  | some st =>
      cases hso : t.stampObject with
      | none =>
          have h0 : t.objects = [] := by simpa [PlacedInv, hso] using hI
          cases b with
          | true => simp [PlacedInv, h0]
          | false => simpa [PlacedInv, hso] using hI
      | some o =>
          have h1 : t.objects = [o] := by simpa [PlacedInv, hso] using hI
          cases b with
          | true => simp [PlacedInv, h1]
          | false => simp [PlacedInv, h1]

/-- C7: the placed-object invariant (the canvas holds exactly the objects
referenced by the store's single `stampObject`) is preserved by every
`addStampToCanvas` run; and after two successful placements in a row exactly
one object is placed and referenced — the second run's operation trace
removes the first object from the surface and clears its reference before
adding, activating and referencing the new one. -/
theorem c7_single_active_placement (s : CanvasState) (st : Stamp)
    (hInv : PlacedInv s) (hsel : s.selectedStamp = some st) :
    (∀ t b, PlacedInv t → PlacedInv (addStampToCanvas t b).1) ∧
    (addStampToCanvas s true).1.objects = [s.nextId] ∧
    (addStampToCanvas s true).1.stampObject = some s.nextId ∧
    (addStampToCanvas (addStampToCanvas s true).1 true).1.objects
      = [s.nextId + 1] ∧
    (addStampToCanvas (addStampToCanvas s true).1 true).1.stampObject
      = some (s.nextId + 1) ∧
    (addStampToCanvas (addStampToCanvas s true).1 true).2.2 =
      [CanvasOp.removeObject s.nextId, CanvasOp.clearStampRef,
        CanvasOp.addObject (s.nextId + 1),
        CanvasOp.setActiveObject (s.nextId + 1),
        CanvasOp.setStampRef (s.nextId + 1)] := by
  have h1 := addStampToCanvas_success s st hsel hInv
  have h2 := addStampToCanvas_success
    { objects := [s.nextId], stampObject := some s.nextId,
      selectedStamp := s.selectedStamp, nextId := s.nextId + 1 } st
    (by simpa using hsel) (by simp [PlacedInv])
  refine ⟨fun t b hI => placedInv_addStampToCanvas t b hI, ?_, ?_, ?_, ?_, ?_⟩
  · rw [h1]
  · rw [h1]
  · rw [h1, h2]
  · rw [h1, h2]
  · rw [h1, h2]
    rfl

/-- C7 witness: two successful placements from an empty surface with a
selected stamp. -/
theorem c7_witness :
    (addStampToCanvas (addStampToCanvas
        { objects := [], stampObject := none,
          selectedStamp := some { id := "s1", src := "d", name := "seal" },
          nextId := 0 } true).1 true).1.objects = [1] ∧
    (addStampToCanvas (addStampToCanvas
        { objects := [], stampObject := none,
          selectedStamp := some { id := "s1", src := "d", name := "seal" },
          nextId := 0 } true).1 true).2.2 =
      [CanvasOp.removeObject 0, CanvasOp.clearStampRef, CanvasOp.addObject 1,
        CanvasOp.setActiveObject 1, CanvasOp.setStampRef 1] := by
  have h := c7_single_active_placement
    { objects := [], stampObject := none,
      selectedStamp := some { id := "s1", src := "d", name := "seal" },
      nextId := 0 }
    { id := "s1", src := "d", name := "seal" }
    rfl rfl
  exact ⟨h.2.2.2.1, h.2.2.2.2.2⟩

/-- One library operation keeps the stamp collection within the 5-asset
bound. -/
theorem applyLibOp_length_le (stamps : List Stamp) (op : LibOp)
    (h : stamps.length ≤ 5) : (applyLibOp stamps op).length ≤ 5 := by
  cases op with
  | upload isValid newStamp =>
      show (handleStampChange stamps isValid newStamp).length ≤ 5
      unfold handleStampChange
      by_cases h5 : stamps.length ≥ 5
      · rw [if_pos h5]
        exact h
      · rw [if_neg h5]
        cases isValid with
        | true =>
            simp only [if_pos]
            simp
            omega
        | false => simpa using h
  | remove stampId =>
      show (removeStamp stamps stampId).length ≤ 5
      unfold removeStamp
      exact le_trans (List.length_filter_le _ _) h

/-- Any sequence of library operations keeps the collection within the
5-asset bound, starting from any collection within the bound. -/
theorem foldl_applyLibOp_length_le (ops : List LibOp) (acc : List Stamp)
    (h : acc.length ≤ 5) : (ops.foldl applyLibOp acc).length ≤ 5 := by
  induction ops generalizing acc with
  | nil => simpa using h
  | cons op rest ih => exact ih _ (applyLibOp_length_le acc op h)

/-- C8: an upload attempted while 5 (or more) stamp assets exist is rejected
with the library unchanged, and from the empty library every sequence of
upload/remove operations keeps the library size at most 5. -/
theorem c8_asset_cap (stamps : List Stamp) (isValid : Bool) (newStamp : Stamp)
    (hfull : 5 ≤ stamps.length) :
    handleStampChange stamps isValid newStamp = stamps ∧
    ∀ ops : List LibOp, (runLibOps ops).length ≤ 5 := by
  constructor
  · unfold handleStampChange
    rw [if_pos hfull]
  · intro ops
    exact foldl_applyLibOp_length_le ops [] (by simp)

/-- C8 witness: a concrete 5-asset library rejects a 6th upload unchanged,
and the size bound holds for all operation sequences. -/
theorem c8_witness :
    handleStampChange
        [{ id := "1", src := "a", name := "a" },
          { id := "2", src := "b", name := "b" },
          { id := "3", src := "c", name := "c" },
          { id := "4", src := "d", name := "d" },
          { id := "5", src := "e", name := "e" }] true
        { id := "6", src := "f", name := "f" } =
      [{ id := "1", src := "a", name := "a" },
        { id := "2", src := "b", name := "b" },
        { id := "3", src := "c", name := "c" },
        { id := "4", src := "d", name := "d" },
        { id := "5", src := "e", name := "e" }] ∧
    ∀ ops : List LibOp, (runLibOps ops).length ≤ 5 :=
  c8_asset_cap _ true _ (by decide)

/-- Clamping to non-negative coordinates is idempotent. -/
theorem adjustedPosition_idem (r : Rect) :
    adjustedPosition (adjustedPosition r) = adjustedPosition r := by
  unfold adjustedPosition
  congr 1 <;> exact max_eq_right (le_max_left 0 _)

/-- Looking up a page's recorded placement commutes with clamping every
recorded placement's position. -/
theorem find?_map_clampPageStamp (pageStamps : List PageStamp) (n : Int) :
    (pageStamps.map clampPageStamp).find? (fun q => q.pageNumber == n) =
      (pageStamps.find? (fun q => q.pageNumber == n)).map clampPageStamp := by
  induction pageStamps with
  | nil => rfl
  | cons ps rest ih =>
      cases hp : (ps.pageNumber == n) with
      | false =>
          have hp' : ((clampPageStamp ps).pageNumber == n) = false := hp
          simp [List.find?, hp, hp', ih]
      | true =>
          have hp' : ((clampPageStamp ps).pageNumber == n) = true := hp
          simp [List.find?, hp, hp']

/-- C10: the page-image path clamps both recorded coordinates to
non-negative before invoking the compositor — its result is unchanged when
every recorded position is replaced by its symmetrically clamped version —
and a placement clamped this way always yields a non-negative transformed
x-coordinate (for a non-negative page width); the compositor itself clamps
neither transformed coordinate: both its x and its y output can be
negative. -/
theorem c10_clamp_in_page_image_only (pageStamps : List PageStamp)
    (stamps : List Stamp) (f : PdfFile) (n : Int) :
    getPageImageByFile (pageStamps.map clampPageStamp) stamps f n
      = getPageImageByFile pageStamps stamps f n ∧
    (∀ r : Rect, ∀ g : PageGeometry, 0 ≤ g.width →
      0 ≤ (stampPlacementRect (some (adjustedPosition r)) g).x) ∧
    (stampPlacementRect (some { x := -100, y := 0, width := 50, height := 50 })
        { width := 500, height := 70711 / 100 }).x < 0 ∧
    (stampPlacementRect (some { x := 0, y := 800, width := 50, height := 50 })
        { width := 500, height := 70711 / 100 }).y < 0 := by
  refine ⟨?_, ?_, ?_, ?_⟩
  · unfold getPageImageByFile
    rw [find?_map_clampPageStamp]
    cases hf : pageStamps.find? (fun q => q.pageNumber == n) with
    | none => rfl
    | some ps =>
        simp only [Option.map_some']
        dsimp only [clampPageStamp]
        rw [adjustedPosition_idem]
  · intro r g hg
    have hx : (stampPlacementRect (some (adjustedPosition r)) g).x
        = max 0 r.x * (g.width / 500) := rfl
    rw [hx]
    exact mul_nonneg (le_max_left 0 r.x) (div_nonneg hg (by norm_num))
  · norm_num [stampPlacementRect, FABRIC_CANVAS_WIDTH]
  · norm_num [stampPlacementRect, FABRIC_CANVAS_HEIGHT]

/-- C10 witness: a concrete placement with negative coordinates on a
concrete library state, and the non-negativity of the clamped transform at
a concrete page geometry. -/
theorem c10_witness :
    getPageImageByFile
        ([{ pageNumber := 1, stampId := "s1",
            position := { x := -5, y := -7, width := 10, height := 10 } }].map
          clampPageStamp)
        [] { name := "one", pages := [{ width := 612, height := 792 }],
             draws := [] } 1
      = getPageImageByFile
        [{ pageNumber := 1, stampId := "s1",
           position := { x := -5, y := -7, width := 10, height := 10 } }]
        [] { name := "one", pages := [{ width := 612, height := 792 }],
             draws := [] } 1 ∧
    0 ≤ (stampPlacementRect
        (some (adjustedPosition
          { x := -5, y := -7, width := 10, height := 10 }))
        { width := 612, height := 792 }).x := by
  have h := c10_clamp_in_page_image_only
    [{ pageNumber := 1, stampId := "s1",
       position := { x := -5, y := -7, width := 10, height := 10 } }]
    [] { name := "one", pages := [{ width := 612, height := 792 }],
         draws := [] } 1
  exact ⟨h.1, h.2.1 _ _ (by norm_num)⟩

end ElectronicStamp
